import Mathlib

/-!
Shallow embedding of the tabular data-analysis pipeline of the
tambo-playground repository: the CSV data store (`csv-data`), the query
engine (`analyzeCSV`), the shape classifier (`analyzeDataStructure`),
the insight generator (`generateDataInsights`) and the exploration
suggestion generator (`generateExplorationSuggestions`).

Modelling conventions:
* JavaScript cell values (as produced by the CSV parser with dynamic
  typing) are modelled by `Tambo.Value`: finite numbers as exact
  rationals, strings, booleans, `null` and `undefined`.
* JS floating-point arithmetic on the values reached by these services
  is modelled as exact rational arithmetic, with the IEEE-754 special
  values `Infinity`, `-Infinity` and `NaN` produced at a zero divisor
  (`Tambo.JSNum`).  Rounding error of binary floats is not modelled.
* `Array.prototype.sort` is modelled as a stable insertion sort: an
  element is placed after every element that compares less-or-equal to
  it, so ties and incomparable pairs keep their original order.  This
  agrees with the stable sort required by ECMAScript for consistent
  comparators and with TimSort-style engine behaviour.
* `String.prototype.localeCompare` on the lowercased strings is
  modelled as codepoint-lexicographic comparison.
* `Number.prototype.toFixed` is modelled as exact rounding to nearest
  with ties away from negative infinity; `toString` of a number prints
  the terminating decimal expansion (the only numbers these services
  produce from CSV input).
-/

namespace Tambo

/-- A JavaScript value stored in a CSV cell (Papa.parse with
`dynamicTyping: true` produces numbers, booleans and strings; absent
cells read as `undefined`, explicit nulls as `null`). -/
inductive Value where
  | num (q : ℚ)
  | str (s : String)
  | boolV (b : Bool)
  | nullV
  | undefV
deriving DecidableEq, Repr

/-- The result of the JS `typeof` operator on a `Value`. -/
inductive JSType where
  | number
  | string
  | boolean
  | object
  | undefined
deriving DecidableEq, Repr

/-- `typeof v`. -/
def typeOf : Value → JSType
  | .num _ => .number
  | .str _ => .string
  | .boolV _ => .boolean
  | .nullV => .object
  | .undefV => .undefined

/-- JS truthiness of a `Value` (`0`, `""`, `false`, `null`,
`undefined` are falsy). -/
def truthy : Value → Bool
  | .num q => q != 0
  | .str s => s != ""
  | .boolV b => b
  | .nullV => false
  | .undefV => false

/-- `a || b` on values: `a` when truthy, else `b`. -/
def jsOr (a b : Value) : Value := if truthy a then a else b

/-- The floor of a rational, written out so that it evaluates inside
the kernel. -/
def ratFloor (q : ℚ) : ℤ := Int.fdiv q.num q.den

/-- Decimal digits of a fractional part `q ∈ [0,1)`, most significant
first, stopping at a zero remainder or after `fuel` digits. -/
def fracDigits : ℕ → ℚ → List Char
  | 0, _ => []
  | fuel + 1, q =>
    if q = 0 then []
    else
      let q10 := q * 10
      let d := ratFloor q10
      Char.ofNat (48 + d.toNat) :: fracDigits fuel (q10 - (d : ℚ))

/-- JS `String(n)` for a finite number, modelled for numbers with a
terminating decimal expansion (exponent notation for very large or
very small magnitudes is not modelled). -/
def jsNumString (q : ℚ) : String :=
  let sign := if q < 0 then "-" else ""
  let a := |q|
  let ip := (ratFloor a).toNat
  let fp := a - (ratFloor a : ℚ)
  if fp = 0 then sign ++ toString ip
  else sign ++ toString ip ++ "." ++ String.mk (fracDigits 40 fp)

/-- JS `String(v)` / template-literal conversion of a value. -/
def jsString : Value → String
  | .num q => jsNumString q
  | .str s => s
  | .boolV b => if b then "true" else "false"
  | .nullV => "null"
  | .undefV => "undefined"

/-- A JS number including the IEEE-754 special values. -/
inductive JSNum where
  | finite (q : ℚ)
  | inf
  | negInf
  | nan
deriving DecidableEq, Repr

/-- IEEE-754 division `a / b` of finite operands as a `JSNum`
(`x / 0` is `±Infinity` for `x ≠ 0` and `NaN` for `x = 0`). -/
def jsDivQ (a b : ℚ) : JSNum :=
  if b = 0 then
    if a > 0 then .inf else if a < 0 then .negInf else .nan
  else .finite (a / b)

/-- `n > 0` on a JS number (`false` for `NaN`). -/
def JSNum.gtZero : JSNum → Bool
  | .finite q => q > 0
  | .inf => true
  | .negInf => false
  | .nan => false

/-- `n < 0` on a JS number (`false` for `NaN`). -/
def JSNum.ltZero : JSNum → Bool
  | .finite q => q < 0
  | .inf => false
  | .negInf => true
  | .nan => false

/-- Round to the nearest integer, ties toward positive infinity
(the tie-breaking rule of `Number.prototype.toFixed`). -/
def roundHalfUp (q : ℚ) : ℤ := ratFloor (q + 1/2)

/-- `q.toFixed(f)` for a finite number. -/
def ratToFixed (f : ℕ) (q : ℚ) : String :=
  let n := roundHalfUp (q * (10 : ℚ) ^ f)
  let sign := if n < 0 then "-" else ""
  let m := n.natAbs
  if f = 0 then sign ++ toString m
  else
    let ip := m / 10 ^ f
    let fr := toString (m % 10 ^ f)
    let pad := String.mk (List.replicate (f - fr.length) '0')
    sign ++ toString ip ++ "." ++ pad ++ fr

/-- `n.toFixed(f)` on a JS number (`"Infinity"`, `"-Infinity"`,
`"NaN"` for the special values). -/
def JSNum.toFixed (f : ℕ) : JSNum → String
  | .finite q => ratToFixed f q
  | .inf => "Infinity"
  | .negInf => "-Infinity"
  | .nan => "NaN"

/-- JS `s.toLowerCase()` (ASCII case mapping, matching JS on the
ASCII identifiers and labels these services handle). -/
def jsToLower (s : String) : String :=
  String.mk (s.toList.map Char.toLower)

/-- Whether `needle` occurs as a contiguous substring of `hay`
(JS `String.prototype.includes`). -/
def containsSub (hay needle : List Char) : Bool :=
  match hay with
  | [] => needle.isEmpty
  | _ :: t => needle.isPrefixOf hay || containsSub t needle

/-- JS `s.includes(pat)`. -/
def strIncludes (s pat : String) : Bool :=
  containsSub s.toList pat.toList

/-- `a.localeCompare(b)` modelled as codepoint-lexicographic
comparison: negative, zero or positive. -/
def cmpStr (a b : String) : ℚ :=
  if a < b then -1 else if b < a then 1 else 0

/-- Accumulate a run of decimal digits: value so far, digit count,
remaining characters. -/
def takeDigits : List Char → ℕ → ℕ → (ℕ × ℕ × List Char)
  | c :: rest, acc, cnt =>
    if c.isDigit then takeDigits rest (acc * 10 + (c.toNat - 48)) (cnt + 1)
    else (acc, cnt, c :: rest)
  | [], acc, cnt => (acc, cnt, [])

/-- Parse the decimal part of a JS string-number literal:
`digits [. digits] [e[±]digits]`.  `none` means `NaN`. -/
def parseDec (cs : List Char) : Option ℚ :=
  let (ip, ic, rest) := takeDigits cs 0 0
  let (fp, fc, rest2) :=
    match rest with
    | '.' :: r => takeDigits r 0 0
    | _ => (0, 0, rest)
  if ic = 0 ∧ fc = 0 then none
  else
    let mantissa : ℚ := (ip : ℚ) + (fp : ℚ) / (10 : ℚ) ^ fc
    match rest2 with
    | [] => some mantissa
    | 'e' :: r | 'E' :: r =>
      let (sgn, r2) :=
        match r with
        | '+' :: r2 => ((1 : ℤ), r2)
        | '-' :: r2 => ((-1 : ℤ), r2)
        | _ => ((1 : ℤ), r)
      let (e, ec, rest3) := takeDigits r2 0 0
      if ec = 0 ∨ rest3 ≠ [] then none
      else some (mantissa * (10 : ℚ) ^ (sgn * e))
    | _ => none

/-- Whitespace for the purposes of JS `ToNumber` string trimming. -/
def isJsSpace (c : Char) : Bool :=
  c = ' ' ∨ c = '\t' ∨ c = '\n' ∨ c = '\r'

/-- JS `ToNumber` applied to a string (hexadecimal literals are not
modelled; they would parse to `NaN` here). -/
def jsToNumber (s : String) : JSNum :=
  let cs := ((s.toList.dropWhile isJsSpace).reverse.dropWhile isJsSpace).reverse
  match cs with
  | [] => .finite 0
  | _ =>
    let (neg, body) :=
      match cs with
      | '-' :: r => (true, r)
      | '+' :: r => (false, r)
      | _ => (false, cs)
    if body = "Infinity".toList then (if neg then .negInf else .inf)
    else
      match parseDec body with
      | some q => .finite (if neg then -q else q)
      | none => .nan

/-! ## Datasets and rows -/

/-- A parsed CSV row: a JS object, i.e. an association list from
column name to cell value (keys unique, absent key = `undefined`). -/
abbrev Row := List (String × Value)

/-- `row[h]`: property access on a row object. -/
def getCell (row : Row) (h : String) : Value :=
  match row.lookup h with
  | some v => v
  | none => .undefV

/-- `rows[0]?.[h]`: the first row's cell, `undefined` when there are
no rows. -/
def firstCell (rows : List Row) (h : String) : Value :=
  match rows with
  | [] => .undefV
  | r :: _ => getCell r h

/-- The CSV data store contents (`CSVDataStore` in `csv-data`):
header list, row list and source file name. -/
structure Dataset where
  headers : List String
  rows : List Row
  fileName : String
deriving DecidableEq, Repr

/-! ## Stable sort (model of `Array.prototype.sort`) -/

/-- Insert `a` into `l` before the first element `b` with `r a b`
(elements that compare less-or-equal to `a` are kept before it). -/
def insertR (r : α → α → Bool) (a : α) : List α → List α
  | [] => [a]
  | b :: l => if r a b then a :: b :: l else b :: insertR r a l

/-- Stable insertion sort: ties and incomparable pairs keep their
original relative order. -/
def isortR (r : α → α → Bool) : List α → List α
  | [] => []
  | a :: l => insertR r a (isortR r l)

/-- `arr.slice(0, endIdx)` (negative end counts from the end of the
array). -/
def jsSlice (l : List α) (endIdx : ℤ) : List α :=
  let e : ℤ := if endIdx < 0 then (l.length : ℤ) + endIdx else min endIdx (l.length : ℤ)
  l.take (max e 0).toNat

/-! ## The query engine: `analyzeCSV` (csv-data service) -/

/-- `AnalyzeCSVParams`. -/
structure AnalyzeCSVParams where
  query : String
  sortBy : Option String := none
  sortOrder : Option String := none
  limit : Option ℤ := none
  filterColumn : Option String := none
  filterValue : Option String := none

/-- One label/value pair of the result summary. -/
structure SummaryEntry where
  label : String
  value : String
deriving DecidableEq, Repr

/-- `AnalyzeCSVResult`. -/
structure AnalyzeCSVResult where
  headers : List String
  rows : List (List String)
  totalRows : ℕ
  summary : List SummaryEntry
deriving DecidableEq, Repr

/-- Truthiness of an optional string parameter (`undefined` and the
empty string are falsy). -/
def optTruthy (o : Option String) : Bool :=
  o.getD "" != ""

/-- The filter predicate of `analyzeCSV` on one cell: case-insensitive
substring match for string cells, string-coerced equality otherwise. -/
def matchCell (v : Value) (fv : String) : Bool :=
  match v with
  | .str s => strIncludes (jsToLower s) (jsToLower fv)
  | _ => jsString v == fv

/-- The sort comparator of `analyzeCSV`: numeric difference when both
cells are numbers, otherwise locale comparison of the lowercased
string coercions of `aVal || ""` and `bVal || ""`. -/
def analyzeCmp (sortBy : String) (desc : Bool) (a b : Row) : ℚ :=
  let aVal := getCell a sortBy
  let bVal := getCell b sortBy
  match aVal, bVal with
  | .num x, .num y => if desc then y - x else x - y
  | _, _ =>
    let aStr := jsToLower (jsString (jsOr aVal (.str "")))
    let bStr := jsToLower (jsString (jsOr bVal (.str "")))
    if desc then cmpStr bStr aStr else cmpStr aStr bStr

/-- The sort step of the query engine. -/
def sortRows (sortBy : String) (desc : Bool) (l : List Row) : List Row :=
  isortR (fun a b => analyzeCmp sortBy desc a b ≤ 0) l

/-- The filter step: applied only when both filter parameters are
truthy. -/
def filteredRows (data : Dataset) (p : AnalyzeCSVParams) : List Row :=
  if optTruthy p.filterColumn && optTruthy p.filterValue then
    data.rows.filter (fun row =>
      matchCell (getCell row (p.filterColumn.getD "")) (p.filterValue.getD ""))
  else data.rows

/-- Filter followed by sort; the sort is skipped unless `sortBy` is
truthy and is one of the dataset's headers. -/
def processedRows (data : Dataset) (p : AnalyzeCSVParams) : List Row :=
  let rows := filteredRows data p
  if optTruthy p.sortBy && data.headers.contains (p.sortBy.getD "") then
    sortRows (p.sortBy.getD "") (p.sortOrder == some "desc") rows
  else rows

/-- The limit step: `rows.slice(0, limit)` when `limit` is truthy and
positive. -/
def limitRows (p : AnalyzeCSVParams) (l : List Row) : List Row :=
  match p.limit with
  | some n => if n > 0 then l.take n.toNat else l
  | none => l

/-- The numeric cell content, when the cell is a JS number. -/
def asNum : Value → Option ℚ
  | .num q => some q
  | _ => none

/-- Headers whose first-row value is a number (first-row type
sampling). -/
def numericColsOf (headers : List String) (rows : List Row) : List String :=
  headers.filter (fun h => typeOf (firstCell rows h) == .number)

/-- The `Avg` summary entries: for up to the first 3 numeric columns,
the average of the column's numeric values over the original rows,
formatted with `toFixed(2)`; columns with no numeric value are
skipped. -/
def avgEntries (data : Dataset) : List SummaryEntry :=
  ((numericColsOf data.headers data.rows).take 3).filterMap (fun col =>
    let values := data.rows.filterMap (fun row => asNum (getCell row col))
    if values.length > 0 then
      some ⟨"Avg " ++ col, ratToFixed 2 (values.sum / values.length)⟩
    else none)

/-- A cell of the output grid: `row[h] != null ? String(row[h]) : ""`. -/
def renderCell (v : Value) : String :=
  match v with
  | .nullV => ""
  | .undefV => ""
  | v => jsString v

/-- `analyzeCSV`: guard on the store, then filter, sort, count, limit,
summarise and stringify (a thrown `Error` is modelled as
`Except.error` of its message). -/
def analyzeCSV (store : Option Dataset) (p : AnalyzeCSVParams) :
    Except String AnalyzeCSVResult :=
  match store with
  | none => .error "No CSV data uploaded. Please upload a CSV file first."
  | some data =>
    if data.headers.isEmpty || data.rows.isEmpty then
      .error "CSV data is incomplete or empty."
    else
      let rows := processedRows data p
      let totalRows := rows.length
      let limited := limitRows p rows
      .ok
        { headers := data.headers
          rows := limited.map (fun row => data.headers.map (fun h => renderCell (getCell row h)))
          totalRows := totalRows
          summary := ⟨"Total Rows", toString totalRows⟩ :: avgEntries data }

/-! ## The shape classifier: `analyzeDataStructure` -/

/-- `DataStructureAnalysis` (the union string types of the source are
modelled as strings). -/
structure DataStructureAnalysis where
  dataType : String
  suggestedComponent : String
  reasoning : String
  confidence : ℚ
deriving DecidableEq, Repr

/-- Whether a column name case-insensitively contains `"date"`,
`"time"`, `"month"` or `"year"`. -/
def dateish (h : String) : Bool :=
  strIncludes (jsToLower h) "date" || strIncludes (jsToLower h) "time" ||
  strIncludes (jsToLower h) "month" || strIncludes (jsToLower h) "year"

/-- Headers whose first-row value is a string (first-row type
sampling). -/
def textColsOf (headers : List String) (rows : List Row) : List String :=
  headers.filter (fun h => typeOf (firstCell rows h) == .string)

/-- `analyzeDataStructure`: guards, then the ordered rule cascade
(date-named column, ranking, comparison, categorical, default). -/
def analyzeDataStructure (store : Option Dataset) :
    Except String DataStructureAnalysis :=
  match store with
  | none => .error "No CSV data uploaded. Please upload a CSV file first."
  | some csvData =>
    if csvData.headers.isEmpty then
      .error "CSV file has no headers. Please upload valid data."
    else if csvData.rows.isEmpty then
      .error "CSV file is empty. Please upload data."
    else if csvData.headers.any dateish then
      .ok
        { dataType := "timeseries"
          suggestedComponent := "Graph"
          reasoning := "Your data contains temporal information (dates/times). Time-series data is best visualized as trends and patterns using a Graph component."
          confidence := 0.95 }
    else
      let numericColumns := numericColsOf csvData.headers csvData.rows
      let textColumns := textColsOf csvData.headers csvData.rows
      if numericColumns.length ≥ 2 ∧ textColumns.length = 1 then
        .ok
          { dataType := "ranking"
            suggestedComponent := "InsightCard"
            reasoning := "Your data has " ++ toString textColumns.length ++
              " category column (" ++ textColumns.headD "" ++ ") and " ++
              toString numericColumns.length ++
              " numeric metrics. This is ranking data - best shown with top performers and key metrics using InsightCard."
            confidence := 0.9 }
      else if textColumns.length ≥ 2 ∧ numericColumns.length ≥ 1 then
        .ok
          { dataType := "comparison"
            suggestedComponent := "InfoCard"
            reasoning := "Your data has multiple categories (" ++
              String.intercalate ", " textColumns ++
              ") with metrics. This is comparison data - best explored with detailed cards showing each item\x27s information."
            confidence := 0.85 }
      else if numericColumns.length ≥ 3 ∧ textColumns.length ≤ 1 then
        .ok
          { dataType := "categorical"
            suggestedComponent := "Graph"
            reasoning := "Your data has " ++ toString numericColumns.length ++
              " numeric columns. This can be visualized as a multi-series chart showing relationships between metrics."
            confidence := 0.75 }
      else
        .ok
          { dataType := "unknown"
            suggestedComponent := "DataTable"
            reasoning := "Your data has " ++ toString csvData.headers.length ++
              " columns with " ++ toString textColumns.length ++ " text and " ++
              toString numericColumns.length ++
              " numeric fields. Use an interactive DataTable to explore all the details."
            confidence := 0.6 }

/-! ## The insight generator: `generateDataInsights` -/

/-- `DataInsightsParams`. -/
structure DataInsightsParams where
  analysisType : String
  column : Option String := none
  limit : Option ℤ := none

/-- `InsightMetric` (the class tag is one of `"positive"`,
`"neutral"`, `"warning"`). -/
structure InsightMetric where
  label : String
  value : String
  type : String
deriving DecidableEq, Repr

/-- `TopPerformer`. -/
structure TopPerformer where
  rank : ℕ
  name : String
  value : String
  details : String
deriving DecidableEq, Repr

/-- `DataInsight`. -/
structure DataInsight where
  title : String
  description : String
  metrics : List InsightMetric
  topPerformers : Option (List TopPerformer) := none
  recommendations : Option (List String) := none
deriving DecidableEq, Repr

/-- `Math.max(...values)` over a non-empty list (`0` placeholder on
the empty list, which the callers guard against). -/
def listMax (l : List ℚ) : ℚ := l.foldl max (l.headD 0)

/-- `Math.min(...values)` over a non-empty list. -/
def listMin (l : List ℚ) : ℚ := l.foldl min (l.headD 0)

/-- `generateSummary`. -/
def generateSummary (headers : List String) (rows : List Row)
    (numericColumns : List String) : DataInsight :=
  { title := "Data Summary"
    description := "Analysis of " ++ toString rows.length ++ " records with " ++
      toString headers.length ++ " columns"
    metrics :=
      [⟨"Total Records", toString rows.length, "neutral"⟩,
       ⟨"Data Columns", toString headers.length, "neutral"⟩] ++
      (numericColumns.take 3).flatMap (fun col =>
        let values := rows.filterMap (fun r => asNum (getCell r col))
        if values.length > 0 then
          [⟨col ++ " Range",
            ratToFixed 0 (listMin values) ++ " - " ++ ratToFixed 0 (listMax values),
            "neutral"⟩,
           ⟨col ++ " Average", ratToFixed 2 (values.sum / values.length), "positive"⟩]
        else [])
    topPerformers := none
    recommendations := some
      ["Explore top performers by clicking on a specific metric",
       "Use search to filter data by product name or region",
       "Sort columns to find trends in your data"] }

/-- The first truthy alternative: an optional string, else the
fallback (JS `a || b` with `a` an optional string). -/
def truthyOr (o : Option String) (alt : String) : String :=
  match o with
  | some s => if s != "" then s else alt
  | none => alt

/-- The label column of `generateTopPerformers`: a column literally
named name/product/title/label (case-insensitively), else the first
column whose first-row value is a string, else the first column. -/
def labelColumnOf (headers : List String) (rows : List Row) : String :=
  truthyOr (headers.find? (fun h =>
      ["name", "product", "title", "label"].contains (jsToLower h)))
    (truthyOr (headers.find? (fun h => typeOf (firstCell rows h) == .string))
      (headers.headD ""))

/-- The sort comparator of `generateTopPerformers`: descending numeric
difference when both cells are numbers, `0` (tie) otherwise. -/
def topCmp (column : String) (a b : Row) : ℚ :=
  match getCell a column, getCell b column with
  | .num x, .num y => y - x
  | _, _ => 0

/-- The descending sort of `generateTopPerformers`. -/
def topSorted (column : String) (rows : List Row) : List Row :=
  isortR (fun a b => topCmp column a b ≤ 0) rows

/-- `cell ?? "N/A"` rendered with `String(...)`. -/
def renderNA (v : Value) : String :=
  match v with
  | .nullV => "N/A"
  | .undefV => "N/A"
  | v => jsString v

/-- One ranked entry of the top-performers list. -/
def topEntry (column labelColumn : String) (idx : ℕ) (row : Row) : TopPerformer :=
  { rank := idx + 1
    name :=
      let v := getCell row labelColumn
      if truthy v then jsString v else "Item " ++ toString (idx + 1)
    value := renderNA (getCell row column)
    details := column ++ ": " ++ jsString (getCell row column) }

/-- The sorted rows truncated to the limit:
`[...rows].sort(...).slice(0, limit)`. -/
def topSlice (column : String) (rows : List Row) (limit : ℤ) : List Row :=
  jsSlice (topSorted column rows) limit

/-- The ranked entries built from the sorted, truncated rows. -/
def topPerformersList (column labelColumn : String) (sorted : List Row) :
    List TopPerformer :=
  sorted.mapIdx (fun idx row => topEntry column labelColumn idx row)

/-- JS `+` of a running reduction value and a (already
`|| 0`-defaulted) cell: numeric addition, or string concatenation once
either side is a string.  (`undefined` cannot reach this point because
of the `|| 0` default; it is mapped to the identity.) -/
def jsAdd (acc : ℚ ⊕ String) (v : Value) : ℚ ⊕ String :=
  match acc, v with
  | .inl q, .num p => .inl (q + p)
  | .inl q, .boolV b => .inl (q + (if b then 1 else 0))
  | .inl q, .str s => .inr (jsNumString q ++ s)
  | .inl q, .nullV => .inl q
  | .inl q, .undefV => .inl q
  | .inr s, v => .inr (s ++ jsString v)

/-- The `Average <column>` recommendation figure:
`(sorted.reduce((sum, r) => sum + (r[column] || 0), 0) / sorted.length).toFixed(2)`.
A string-valued reduction result is coerced back through `ToNumber` by
the division. -/
def avgRecString (column : String) (sorted : List Row) : String :=
  let total := sorted.foldl (fun acc r => jsAdd acc (jsOr (getCell r column) (.num 0))) (.inl 0)
  let avg : JSNum :=
    match total with
    | .inl q => jsDivQ q (sorted.length : ℚ)
    | .inr s =>
      match jsToNumber s with
      | .finite q => jsDivQ q (sorted.length : ℚ)
      | .inf => .inf
      | .negInf => .negInf
      | .nan => .nan
  avg.toFixed 2

/-- `generateTopPerformers` (the `column` argument is `undefined` when
neither an explicit column nor a numeric column exists, in which case
the not-found error renders it as `"undefined"`). -/
def generateTopPerformers (headers : List String) (rows : List Row)
    (colChoice : Option String) (limit : ℤ) : Except String DataInsight :=
  match colChoice with
  | none =>
    .error ("Column \"undefined\" not found. Available columns: " ++
      String.intercalate ", " headers)
  | some column =>
    if ! headers.contains column then
      .error ("Column \"" ++ column ++ "\" not found. Available columns: " ++
        String.intercalate ", " headers)
    else
      let labelColumn := labelColumnOf headers rows
      let sorted := topSlice column rows limit
      .ok
        { title := "Top " ++ toString limit ++ " by " ++ column
          description := "Highest performing items based on " ++ column
          metrics :=
            [⟨"Top Value",
              (match sorted.head? with
               | none => "N/A"
               | some r => renderNA (getCell r column)), "positive"⟩,
             ⟨"Items Analyzed", toString rows.length, "neutral"⟩]
          topPerformers := some (topPerformersList column labelColumn sorted)
          recommendations := some
            ["Focus on top performers: " ++
               String.intercalate ", "
                 ((sorted.take 3).map (fun r => jsString (getCell r labelColumn))),
             "Average " ++ column ++ ": " ++ avgRecString column sorted] }

/-- `((last - first) / first) * 100` under IEEE-754 semantics. -/
def percentChange (first last : ℚ) : JSNum :=
  match jsDivQ (last - first) first with
  | .finite q => .finite (q * 100)
  | x => x

/-- The trend metric for one numeric column, when the column has at
least two numeric values. -/
def trendMetric (rows : List Row) (col : String) : Option InsightMetric :=
  let values := rows.filterMap (fun r => asNum (getCell r col))
  if values.length ≥ 2 then
    let first := values.headD 0
    let last := values.getLastD 0
    let change := percentChange first last
    some
      { label := col ++ " Trend"
        value := (if change.gtZero then "+" else "") ++ change.toFixed 1 ++ "%"
        type :=
          if change.gtZero then "positive"
          else if change.ltZero then "warning" else "neutral" }
  else none

/-- `generateTrends`. -/
def generateTrends (rows : List Row) (numericColumns : List String) : DataInsight :=
  let metrics := numericColumns.filterMap (trendMetric rows)
  { title := "Data Trends"
    description := "Trend analysis across numeric columns"
    metrics :=
      if metrics.length > 0 then metrics
      else [⟨"Status", "No trends detected", "neutral"⟩]
    topPerformers := none
    recommendations := some
      ["Monitor positive trends for growth opportunities",
       "Investigate negative trends to identify issues",
       "Compare trends across different time periods"] }

/-- `generateRecommendations`. -/
def generateRecommendations (headers : List String) (rows : List Row)
    (numericColumns : List String) : DataInsight :=
  let stringColumns := headers.filter (fun h => typeOf (firstCell rows h) == .string)
  let recs1 : List String :=
    match stringColumns with
    | [] => []
    | firstStringCol :: _ =>
      let uniq := ((rows.map (fun r => getCell r firstStringCol)).dedup).length
      let conc : ℚ := ((uniq : ℚ) / (rows.length : ℚ)) * 100
      if conc < 30 then
        ["⚠️ High concentration: " ++ toString uniq ++ " unique " ++ firstStringCol ++
         "s for " ++ toString rows.length ++ " records. Consider diversification."]
      else if conc > 70 then
        ["✅ Good diversity: " ++ toString uniq ++ " unique " ++ firstStringCol ++
         "s across " ++ toString rows.length ++ " records"]
      else []
  let recs2 : List String :=
    (numericColumns.take 2).flatMap (fun col =>
      let values := rows.filterMap (fun r => asNum (getCell r col))
      if values.length > 0 then
        let avg := values.sum / values.length
        let mx := listMax values
        let mn := listMin values
        (if mx > avg * 1.5 then
          ["📈 " ++ col ++ " has high outliers (max: " ++ ratToFixed 0 mx ++
           " vs avg: " ++ ratToFixed 0 avg ++ "). These may be opportunities."]
         else []) ++
        (if mn < avg * 0.5 then
          ["📉 " ++ col ++ " has low outliers (min: " ++ ratToFixed 0 mn ++
           " vs avg: " ++ ratToFixed 0 avg ++ "). Consider investigation."]
         else [])
      else [])
  let recs := recs1 ++ recs2
  { title := "Data Recommendations"
    description := "Actionable insights based on data analysis"
    metrics :=
      [⟨"Total Records", toString rows.length, "neutral"⟩,
       ⟨"Data Quality", "Good", "positive"⟩]
    topPerformers := none
    recommendations := some
      (if recs.isEmpty then
        ["Data looks balanced - maintain current trends",
         "Monitor for changes in key metrics",
         "Use sorting and filtering to discover insights"]
       else recs) }

/-- `params.limit || 5`-style defaulting of an optional number. -/
def jsOrInt (o : Option ℤ) (d : ℤ) : ℤ :=
  match o with
  | some n => if n != 0 then n else d
  | none => d

/-- `generateDataInsights`: guards, then dispatch on the analysis
type (unknown values fall back to the summary). -/
def generateDataInsights (store : Option Dataset) (p : DataInsightsParams) :
    Except String DataInsight :=
  match store with
  | none => .error "No CSV data uploaded. Please upload a file first."
  | some csvData =>
    if csvData.headers.isEmpty || csvData.rows.isEmpty then
      .error "CSV data is incomplete or empty."
    else
      let numericColumns := numericColsOf csvData.headers csvData.rows
      match p.analysisType with
      | "summary" => .ok (generateSummary csvData.headers csvData.rows numericColumns)
      | "top_performers" =>
        generateTopPerformers csvData.headers csvData.rows
          (if optTruthy p.column then p.column else numericColumns.head?)
          (jsOrInt p.limit 5)
      | "trends" => .ok (generateTrends csvData.rows numericColumns)
      | "recommendations" =>
        .ok (generateRecommendations csvData.headers csvData.rows numericColumns)
      | _ => .ok (generateSummary csvData.headers csvData.rows numericColumns)

/-! ## The suggestion generator: `generateExplorationSuggestions` -/

/-- One exploration suggestion. -/
structure Suggestion where
  label : String
  description : String
  action : String
deriving DecidableEq, Repr

/-- `ExplorationSuggestion`. -/
structure ExplorationSuggestion where
  mainInsight : String
  suggestions : List Suggestion
deriving DecidableEq, Repr

/-- `buildMainInsight`: the natural-language overview paragraph. -/
def buildMainInsight (headers : List String) (rows : List Row)
    (stringColumns numericColumns : List String) (hasDateColumn : Bool) : String :=
  let uniqueCounts := (stringColumns.take 2).map (fun col =>
    toString (((rows.map (fun r => getCell r col)).dedup).length) ++
      " unique " ++ jsToLower col)
  "Your dataset has " ++ toString rows.length ++ " records across " ++
    toString headers.length ++ " columns. " ++
  (if stringColumns.length > 0 then
    "You have " ++ toString stringColumns.length ++ " category column" ++
      (if stringColumns.length > 1 then "s" else "") ++ " (" ++
      String.intercalate ", " stringColumns ++ ") with " ++
      String.intercalate " and " uniqueCounts ++ ". "
   else "") ++
  (if numericColumns.length > 0 then
    "There are " ++ toString numericColumns.length ++ " numeric metric" ++
      (if numericColumns.length > 1 then "s" else "") ++ " (" ++
      String.intercalate ", " numericColumns ++ ") to analyze. "
   else "") ++
  (if hasDateColumn then "Your data spans a time period, so you can analyze trends. "
   else "") ++
  "Here are some interesting ways to explore your data:"

/-- `generateExplorationSuggestions`: guards, then up to six canned
suggestions conditioned on the column types, with a generic fallback
when none fires. -/
def generateExplorationSuggestions (store : Option Dataset) :
    Except String ExplorationSuggestion :=
  match store with
  | none => .error "No CSV data uploaded. Please upload a CSV file first."
  | some csvData =>
    if csvData.headers.isEmpty || csvData.rows.isEmpty then
      .error "CSV file is empty or invalid."
    else
      let headers := csvData.headers
      let rows := csvData.rows
      let stringColumns := textColsOf headers rows
      let numericColumns := numericColsOf headers rows
      let hasDateColumn := headers.any dateish
      let s1 : List Suggestion :=
        if stringColumns.length > 0 ∧ numericColumns.length > 0 then
          let categoryColumn := stringColumns.headD ""
          let metricColumn := numericColumns.headD ""
          [{ label := "Compare by " ++ categoryColumn
             description := "See how " ++ jsToLower metricColumn ++
               " varies across different " ++ jsToLower categoryColumn
             action := "Show me the top 5 " ++ jsToLower categoryColumn ++ " by " ++
               metricColumn ++ " in a ranked list with details" }]
        else []
      let s2 : List Suggestion :=
        if numericColumns.length > 0 then
          let column := numericColumns.headD ""
          [{ label := "Identify Outliers"
             description := "Find unusually high or low values in " ++ column
             action := "Analyze " ++ column ++
               ": Show me the highest 3 and lowest 3 values. What makes them unusual? Explain the outliers." }]
        else []
      let s3 : List Suggestion :=
        if hasDateColumn ∧ numericColumns.length > 0 then
          let metric := numericColumns.headD ""
          [{ label := "Analyze Trends"
             description := "See how " ++ jsToLower metric ++ " changes over time"
             action := "Show me " ++ metric ++
               " trends over the time period. Are values increasing, decreasing, or stable? Explain any patterns." }]
        else []
      let s4 : List Suggestion :=
        if numericColumns.length ≥ 2 then
          let col1 := numericColumns.headD ""
          let col2 := (numericColumns.drop 1).headD ""
          [{ label := "Distribution Analysis"
             description := "Compare distribution of " ++ col1 ++ " vs " ++ col2
             action := "How does " ++ col1 ++ " compare to " ++ col2 ++
               "? Show the relationship between these metrics and identify correlations." }]
        else []
      let s5 : List Suggestion :=
        if stringColumns.length > 1 ∧ numericColumns.length > 0 then
          let cat1 := stringColumns.headD ""
          let cat2 := (stringColumns.drop 1).headD ""
          [{ label := cat1 ++ " vs " ++ cat2 ++ " Breakdown"
             description := "Analyze how these two categories interact"
             action := "Show me the relationship between " ++ cat1 ++ " and " ++ cat2 ++
               ". Which combinations have the highest values?" }]
        else []
      let s6 : List Suggestion :=
        if numericColumns.length ≥ 2 then
          [{ label := "Best Performers"
             description := "Find the top overall performers across all metrics"
             action := "What are the best performing items overall? Consider all metrics and show me the top 5 with full details." }]
        else []
      let suggestions := s1 ++ s2 ++ s3 ++ s4 ++ s5 ++ s6
      .ok
        { mainInsight :=
            buildMainInsight headers rows stringColumns numericColumns hasDateColumn
          suggestions :=
            if suggestions.length > 0 then suggestions
            else
              [{ label := "Explore Data"
                 description := "Get a summary of your data"
                 action := "Give me an overview of this data with key metrics and insights" }] }

/-! ## Helper lemmas about the stable sort -/

theorem insertR_length (r : α → α → Bool) (a : α) (l : List α) :
    (insertR r a l).length = l.length + 1 := by
  induction l with
  | nil => rfl
  | cons b t ih =>
    simp only [insertR]
    split
    · simp
    · simp [ih]

theorem isortR_length (r : α → α → Bool) (l : List α) :
    (isortR r l).length = l.length := by
  induction l with
  | nil => rfl
  | cons a t ih => simp [isortR, insertR_length, ih]

theorem sortRows_length (sortBy : String) (desc : Bool) (l : List Row) :
    (sortRows sortBy desc l).length = l.length :=
  isortR_length _ l

/-- Inserting into a chain of a total relation yields a chain. -/
theorem chain'_insertR (r : α → α → Bool)
    (htot : ∀ a b, r a b = true ∨ r b a = true) (a : α) :
    ∀ l : List α, l.Chain' (fun x y => r x y = true) →
      (insertR r a l).Chain' (fun x y => r x y = true) := by
  intro l
  induction l with
  | nil => intro _; simp [insertR]
  | cons b t ih =>
    intro hl
    simp only [insertR]
    by_cases hab : r a b = true
    · simp only [hab, if_true]
      exact List.chain'_cons.mpr ⟨hab, hl⟩
    · simp only [hab, if_false]
      have hba : r b a = true := (htot a b).resolve_left hab
      have ht := hl.tail
      simp only [List.tail_cons] at ht
      have hins := ih ht
      cases t with
      | nil =>
        simp only [insertR]
        exact List.chain'_cons.mpr ⟨hba, List.chain'_singleton a⟩
      | cons c t' =>
        simp only [insertR] at hins ⊢
        by_cases hac : r a c = true
        · simp only [hac, if_true] at hins ⊢
          exact List.chain'_cons.mpr ⟨hba, hins⟩
        · simp only [hac, if_false] at hins ⊢
          have hbc : r b c = true := (List.chain'_cons.mp hl).1
          exact List.chain'_cons.mpr ⟨hbc, hins⟩

/-- The stable sort of a total comparator always produces a chain. -/
theorem chain'_isortR (r : α → α → Bool)
    (htot : ∀ a b, r a b = true ∨ r b a = true) (l : List α) :
    (isortR r l).Chain' (fun x y => r x y = true) := by
  induction l with
  | nil => simp [isortR]
  | cons a t ih => exact chain'_insertR r htot a _ ih

/-- A chain is a fixed point of the stable sort. -/
theorem isortR_eq_of_chain' (r : α → α → Bool) :
    ∀ l : List α, l.Chain' (fun x y => r x y = true) → isortR r l = l := by
  intro l
  induction l with
  | nil => intro _; rfl
  | cons a t ih =>
    intro h
    have ht := h.tail
    simp only [List.tail_cons] at ht
    rw [isortR, ih ht]
    cases t with
    | nil => rfl
    | cons b t' =>
      have hab : r a b = true := (List.chain'_cons.mp h).1
      simp [insertR, hab]

/-- The stable sort of a total comparator is idempotent. -/
theorem isortR_idem (r : α → α → Bool)
    (htot : ∀ a b, r a b = true ∨ r b a = true) (l : List α) :
    isortR r (isortR r l) = isortR r l :=
  isortR_eq_of_chain' r _ (chain'_isortR r htot l)

/-- Equal maps over the same list give pointwise-equal functions on its
members. -/
theorem map_eq_pointwise {f g : α → β} :
    ∀ {l : List α}, l.map f = l.map g → ∀ a ∈ l, f a = g a := by
  intro l
  induction l with
  | nil => intro _ a ha; cases ha
  | cons x t ih =>
    intro h a ha
    simp only [List.map_cons, List.cons.injEq] at h
    rcases List.mem_cons.mp ha with ha | ha
    · subst ha; exact h.1
    · exact ih h.2 a ha

/-! ## Totality of the two sort comparators -/

theorem sub_total (x y : ℚ) : x - y ≤ 0 ∨ y - x ≤ 0 := by
  rcases le_total x y with h | h
  · exact Or.inl (by linarith)
  · exact Or.inr (by linarith)

theorem cmpStr_total (s t : String) : cmpStr s t ≤ 0 ∨ cmpStr t s ≤ 0 := by
  by_cases h1 : s < t
  · left; simp [cmpStr, h1]
  · by_cases h2 : t < s
    · right; simp [cmpStr, h2]
    · left; simp [cmpStr, h1, h2]

set_option maxHeartbeats 1000000 in
/-- The query-engine comparator is total: one of the two orders of any
pair compares less-or-equal. -/
theorem analyzeCmp_total (sortBy : String) (dsc : Bool) (a b : Row) :
    analyzeCmp sortBy dsc a b ≤ 0 ∨ analyzeCmp sortBy dsc b a ≤ 0 := by
  cases hga : getCell a sortBy <;> cases hgb : getCell b sortBy <;>
    cases dsc <;>
    simp only [analyzeCmp, hga, hgb, reduceIte] <;>
    first
      | exact cmpStr_total _ _
      | exact Or.symm (cmpStr_total _ _)
      | exact sub_total _ _

/-- The top-performers comparator is total. -/
theorem topCmp_total (c : String) (a b : Row) :
    topCmp c a b ≤ 0 ∨ topCmp c b a ≤ 0 := by
  cases hga : getCell a c <;> cases hgb : getCell b c <;>
    simp only [topCmp, hga, hgb] <;>
    first
      | exact Or.symm (sub_total _ _)
      | exact Or.inl le_rfl

/-! ## Example datasets used by the witnesses -/

/-- A one-column, one-row dataset. -/
def exA : Dataset := ⟨["A"], [[("A", .num 1)]], "a.csv"⟩

/-- The sales dataset of the specification scenarios. -/
def exSales : Dataset :=
  ⟨["Month", "Revenue", "Region"],
   [[("Month", .str "Jan"), ("Revenue", .num 100), ("Region", .str "East")],
    [("Month", .str "Feb"), ("Revenue", .num 150), ("Region", .str "West")]],
   "sales.csv"⟩

/-! ## Facts about the query engine used by several claims -/

theorem limitRows_nil (p : AnalyzeCSVParams) : limitRows p [] = [] := by
  unfold limitRows
  cases p.limit with
  | none => rfl
  | some n => split <;> simp

theorem processedRows_length (d : Dataset) (p : AnalyzeCSVParams) :
    (processedRows d p).length = (filteredRows d p).length := by
  unfold processedRows
  split
  · exact sortRows_length _ _ _
  · rfl

/-- On a loaded non-empty dataset `analyzeCSV` always succeeds, with
the grid built from the limited rows, the total from the pre-limit
rows and the summary from the original rows. -/
theorem analyzeCSV_ok (d : Dataset) (p : AnalyzeCSVParams)
    (hh : d.headers ≠ []) (hr : d.rows ≠ []) :
    analyzeCSV (some d) p = .ok
      { headers := d.headers
        rows := (limitRows p (processedRows d p)).map
          (fun row => d.headers.map (fun h => renderCell (getCell row h)))
        totalRows := (processedRows d p).length
        summary := ⟨"Total Rows", toString (processedRows d p).length⟩ :: avgEntries d } := by
  simp [analyzeCSV, List.isEmpty_eq_false.mpr hh, List.isEmpty_eq_false.mpr hr]

/-! ## Claim theorems -/

/-- C7: invoking the query engine, the shape classifier, the insight
generator or the suggestion generator with no dataset loaded yields
the well-defined not-loaded error of each service, never a computed
result. -/
theorem c7_not_loaded_errors (p : AnalyzeCSVParams) (q : DataInsightsParams) :
    analyzeCSV none p = .error "No CSV data uploaded. Please upload a CSV file first." ∧
    analyzeDataStructure none = .error "No CSV data uploaded. Please upload a CSV file first." ∧
    generateDataInsights none q = .error "No CSV data uploaded. Please upload a file first." ∧
    generateExplorationSuggestions none =
      .error "No CSV data uploaded. Please upload a CSV file first." :=
  ⟨rfl, rfl, rfl, rfl⟩

/-- C6: the query engine's sort step is idempotent — re-sorting an
already-sorted row sequence by the same column and direction returns
it unchanged, for every column, direction and row list (ties keep
their order because the sort is stable). -/
theorem c6_sort_idempotent (sortBy : String) (dsc : Bool) (l : List Row) :
    sortRows sortBy dsc (sortRows sortBy dsc l) = sortRows sortBy dsc l := by
  apply isortR_idem
  intro a b
  rcases analyzeCmp_total sortBy dsc a b with h | h
  · exact Or.inl (decide_eq_true h)
  · exact Or.inr (decide_eq_true h)

/-- C5: when any column name case-insensitively contains date, time,
month or year, the classifier returns time-series with confidence 0.95
and the chart component, whatever the column type counts are (the date
rule precedes every later rule). -/
theorem c5_date_column_rule (d : Dataset) (hh : d.headers ≠ []) (hr : d.rows ≠ [])
    (hdate : d.headers.any dateish = true) :
    analyzeDataStructure (some d) = .ok
      { dataType := "timeseries", suggestedComponent := "Graph",
        reasoning := "Your data contains temporal information (dates/times). Time-series data is best visualized as trends and patterns using a Graph component.",
        confidence := 0.95 } := by
  simp [analyzeDataStructure, List.isEmpty_eq_false.mpr hh, List.isEmpty_eq_false.mpr hr, hdate]

/-- Witness for C5 at the Month/Revenue/Region dataset. -/
theorem c5_witness :
    analyzeDataStructure (some exSales) = .ok
      { dataType := "timeseries", suggestedComponent := "Graph",
        reasoning := "Your data contains temporal information (dates/times). Time-series data is best visualized as trends and patterns using a Graph component.",
        confidence := 0.95 } :=
  c5_date_column_rule exSales (by decide) (by decide) (by decide)

/-- C2: querying a loaded non-empty dataset with no filter, no sort
and no limit returns its headers, all its rows in order (stringified
cell by cell under the header order, absent cells as the empty
string), and a total equal to its row count. -/
theorem c2_roundtrip (d : Dataset) (q : String) (hh : d.headers ≠ []) (hr : d.rows ≠ []) :
    ∃ s, analyzeCSV (some d) { query := q } =
      .ok { headers := d.headers,
            rows := d.rows.map (fun row => d.headers.map (fun h => renderCell (getCell row h))),
            totalRows := d.rows.length,
            summary := s } := by
  refine ⟨⟨"Total Rows", toString d.rows.length⟩ :: avgEntries d, ?_⟩
  simp [analyzeCSV, processedRows, filteredRows, limitRows, optTruthy,
    List.isEmpty_eq_false.mpr hh, List.isEmpty_eq_false.mpr hr]

/-- Witness for C2 at the sales dataset. -/
theorem c2_witness :
    ∃ s, analyzeCSV (some exSales) { query := "show all" } =
      .ok { headers := exSales.headers,
            rows := exSales.rows.map (fun row => exSales.headers.map (fun h => renderCell (getCell row h))),
            totalRows := exSales.rows.length,
            summary := s } :=
  c2_roundtrip exSales "show all" (by decide) (by decide)

unseal Rat.add Rat.mul Rat.inv Rat.sub Rat.ofScientific in
/-- Counterexample to C1 as stated: a query whose sort column `"B"` is
not among the dataset's column names succeeds (the sort is silently
skipped), and a query whose filter column `"B"` is unknown succeeds
with zero rows instead of failing with a descriptive error. -/
theorem c1_counterexample :
    analyzeCSV (some ⟨["A"], [[("A", .num 1)]], "a.csv"⟩) { query := "q", sortBy := some "B" } =
      .ok ⟨["A"], [["1"]], 1, [⟨"Total Rows", "1"⟩, ⟨"Avg A", "1.00"⟩]⟩ ∧
    analyzeCSV (some ⟨["A"], [[("A", .num 1)]], "a.csv"⟩)
        { query := "q", filterColumn := some "B", filterValue := some "x" } =
      .ok ⟨["A"], [], 0, [⟨"Total Rows", "0"⟩, ⟨"Avg A", "1.00"⟩]⟩ := by
  constructor <;> rfl

/-- C1 amended: an unknown sort column is silently ignored (the sort
step leaves the filtered rows unchanged), and a filter naming a column
absent from every row compares the filter value against the string
`"undefined"`, so any other non-empty filter value yields a successful
result with zero rows and total zero — never a descriptive error. -/
theorem c1_unknown_columns_fall_through (d : Dataset) (hh : d.headers ≠ []) (hr : d.rows ≠ [])
    (p : AnalyzeCSVParams) (sc fc fv : String)
    (hs : p.sortBy = some sc) (hsc : sc ∉ d.headers)
    (hfc : p.filterColumn = some fc) (hfcne : fc ≠ "")
    (hfv : p.filterValue = some fv) (hfvne : fv ≠ "") (hfvu : fv ≠ "undefined")
    (habsent : ∀ row ∈ d.rows, row.lookup fc = none) :
    processedRows d p = filteredRows d p ∧
    ∃ r, analyzeCSV (some d) p = .ok r ∧ r.rows = [] ∧ r.totalRows = 0 := by
  have hcont : d.headers.contains sc = false := by simpa using hsc
  have hpart1 : processedRows d p = filteredRows d p := by
    unfold processedRows
    rw [hs]
    simp only [Option.getD_some, hcont, Bool.and_false, Bool.false_eq_true, if_false]
  have hfil : filteredRows d p = [] := by
    simp only [filteredRows, hfc, hfv, optTruthy, Option.getD_some]
    rw [if_pos]
    · apply List.filter_eq_nil_iff.mpr
      intro row hrow
      have hcell : getCell row fc = .undefV := by
        simp [getCell, habsent row hrow]
      simp [hcell, matchCell, jsString, beq_eq_false_iff_ne, Ne.symm hfvu]
    · simp [hfcne, hfvne]
  have hproc : processedRows d p = [] := hpart1.trans hfil
  refine ⟨hpart1, _, analyzeCSV_ok d p hh hr, ?_, ?_⟩
  · simp [hproc, limitRows_nil]
  · simp [hproc]

/-- Witness for the amended C1. -/
theorem c1_amended_witness :
    processedRows exA { query := "q", sortBy := some "B", filterColumn := some "B", filterValue := some "x" } =
      filteredRows exA { query := "q", sortBy := some "B", filterColumn := some "B", filterValue := some "x" } ∧
    ∃ r, analyzeCSV (some exA)
        { query := "q", sortBy := some "B", filterColumn := some "B", filterValue := some "x" } =
      .ok r ∧ r.rows = [] ∧ r.totalRows = 0 :=
  c1_unknown_columns_fall_through exA (by decide) (by decide) _ "B" "B" "x"
    rfl (by decide) rfl (by decide) rfl (by decide) (by decide) (by decide)

/-- C4: with a non-empty filter on an existing column, the query
succeeds, its total row count is the count of the filtered (not
original) rows, and when the filter value matches no row the result
has zero rows and total zero. -/
theorem c4_filtered_total (d : Dataset) (hh : d.headers ≠ []) (hr : d.rows ≠ [])
    (p : AnalyzeCSVParams) (fc fv : String)
    (hmem : fc ∈ d.headers)
    (hfc : p.filterColumn = some fc) (hfcne : fc ≠ "")
    (hfv : p.filterValue = some fv) (hfvne : fv ≠ "") :
    ∃ r, analyzeCSV (some d) p = .ok r ∧
      r.totalRows = (d.rows.filter (fun row => matchCell (getCell row fc) fv)).length ∧
      ((∀ row ∈ d.rows, matchCell (getCell row fc) fv = false) →
        r.rows = [] ∧ r.totalRows = 0) := by
  have hfil : filteredRows d p =
      d.rows.filter (fun row => matchCell (getCell row fc) fv) := by
    simp only [filteredRows, hfc, hfv, optTruthy, Option.getD_some]
    rw [if_pos]
    simp [hfcne, hfvne]
  refine ⟨_, analyzeCSV_ok d p hh hr, ?_, ?_⟩
  · show (processedRows d p).length = _
    rw [processedRows_length, hfil]
  · intro hnone
    have hfil0 : filteredRows d p = [] := by
      rw [hfil]
      exact List.filter_eq_nil_iff.mpr (by simpa using hnone)
    have hproc : processedRows d p = [] := by
      unfold processedRows
      rw [hfil0]
      split <;> rfl
    constructor
    · show (limitRows p (processedRows d p)).map _ = []
      rw [hproc, limitRows_nil]
      rfl
    · show (processedRows d p).length = 0
      rw [hproc]
      rfl

/-- Witness for C4: filtering the sales dataset by a Region value that
appears nowhere. -/
theorem c4_witness :
    ∃ r, analyzeCSV (some exSales)
        { query := "f", filterColumn := some "Region", filterValue := some "zzz" } = .ok r ∧
      r.totalRows = (exSales.rows.filter
        (fun row => matchCell (getCell row "Region") "zzz")).length ∧
      ((∀ row ∈ exSales.rows, matchCell (getCell row "Region") "zzz" = false) →
        r.rows = [] ∧ r.totalRows = 0) :=
  c4_filtered_total exSales (by decide) (by decide) _ "Region" "zzz"
    (by decide) rfl (by decide) rfl (by decide)

/-- C9: the per-column average entries of the summary are a function
of the stored dataset alone — every query, filtered or not, reports
the same summary tail, while the leading Total Rows entry counts the
filtered rows of its own query. -/
theorem c9_summary_from_original (d : Dataset) (hh : d.headers ≠ []) (hr : d.rows ≠ [])
    (p1 p2 : AnalyzeCSVParams) :
    ∃ r1 r2, analyzeCSV (some d) p1 = .ok r1 ∧ analyzeCSV (some d) p2 = .ok r2 ∧
      r1.summary = ⟨"Total Rows", toString (processedRows d p1).length⟩ :: avgEntries d ∧
      r2.summary = ⟨"Total Rows", toString (processedRows d p2).length⟩ :: avgEntries d ∧
      r1.summary.tail = r2.summary.tail :=
  ⟨_, _, analyzeCSV_ok d p1 hh hr, analyzeCSV_ok d p2 hh hr, rfl, rfl, rfl⟩

/-- Witness for C9: a filtered and an unfiltered query over the sales
dataset share their average entries. -/
theorem c9_witness :
    ∃ r1 r2,
      analyzeCSV (some exSales)
        { query := "f", filterColumn := some "Region", filterValue := some "east" } = .ok r1 ∧
      analyzeCSV (some exSales) { query := "all" } = .ok r2 ∧
      r1.summary = ⟨"Total Rows", toString (processedRows exSales
        { query := "f", filterColumn := some "Region", filterValue := some "east" }).length⟩ ::
        avgEntries exSales ∧
      r2.summary = ⟨"Total Rows", toString (processedRows exSales { query := "all" }).length⟩ ::
        avgEntries exSales ∧
      r1.summary.tail = r2.summary.tail :=
  c9_summary_from_original exSales (by decide) (by decide) _ _

/-- C8: the shape classifier is a pure function of the dataset's
column names and the types of its first row's values — two loaded
datasets agreeing on those produce identical classifications
(category, component, reasoning and confidence), so re-running it on
an unchanged dataset is deterministic. -/
theorem c8_classifier_deterministic (d1 d2 : Dataset)
    (hH : d1.headers = d2.headers)
    (hr1 : d1.rows ≠ []) (hr2 : d2.rows ≠ [])
    (hT : d1.headers.map (fun h => typeOf (firstCell d1.rows h)) =
          d2.headers.map (fun h => typeOf (firstCell d2.rows h))) :
    analyzeDataStructure (some d1) = analyzeDataStructure (some d2) := by
  have hpt : ∀ h ∈ d2.headers, typeOf (firstCell d1.rows h) = typeOf (firstCell d2.rows h) := by
    rw [hH] at hT
    exact map_eq_pointwise hT
  have hnum : numericColsOf d1.headers d1.rows = numericColsOf d2.headers d2.rows := by
    unfold numericColsOf
    rw [hH]
    exact List.filter_congr (fun h hm => by rw [hpt h hm])
  have htext : textColsOf d1.headers d1.rows = textColsOf d2.headers d2.rows := by
    unfold textColsOf
    rw [hH]
    exact List.filter_congr (fun h hm => by rw [hpt h hm])
  simp only [analyzeDataStructure]
  rw [hnum, htext, hH, List.isEmpty_eq_false.mpr hr1, List.isEmpty_eq_false.mpr hr2]

/-- Two datasets with the same headers and first-row types but
different values. -/
def exRank1 : Dataset :=
  ⟨["Product", "Units", "Revenue"],
   [[("Product", .str "a"), ("Units", .num 1), ("Revenue", .num 2)]], "r1.csv"⟩

def exRank2 : Dataset :=
  ⟨["Product", "Units", "Revenue"],
   [[("Product", .str "b"), ("Units", .num 5), ("Revenue", .num 7)],
    [("Product", .str "c"), ("Units", .num 6), ("Revenue", .num 8)]], "r2.csv"⟩

/-- Witness for C8. -/
theorem c8_witness :
    analyzeDataStructure (some exRank1) = analyzeDataStructure (some exRank2) :=
  c8_classifier_deterministic exRank1 exRank2 (by decide) (by decide) (by decide) (by decide)

/-- C10: when a numeric column has at least two numeric values and
the first one is 0, the trends insight still returns normally, and the
column's percent-change metric renders a non-finite value
(`+Infinity%`, `-Infinity%` or `NaN%`) because the change is divided
by the unguarded first value. -/
theorem c10_trend_zero_divisor (d : Dataset) (hh : d.headers ≠ []) (hr : d.rows ≠ [])
    (c : String) (hc : c ∈ numericColsOf d.headers d.rows)
    (h2 : 2 ≤ (d.rows.filterMap (fun r => asNum (getCell r c))).length)
    (h0 : (d.rows.filterMap (fun r => asNum (getCell r c))).headD 0 = 0) :
    ∃ ins, generateDataInsights (some d) { analysisType := "trends" } = .ok ins ∧
      ∃ m ∈ ins.metrics, m.label = c ++ " Trend" ∧
        (m.value = "+Infinity%" ∨ m.value = "-Infinity%" ∨ m.value = "NaN%") := by
  have hdisp : generateDataInsights (some d) { analysisType := "trends" } =
      .ok (generateTrends d.rows (numericColsOf d.headers d.rows)) := by
    simp [generateDataInsights, List.isEmpty_eq_false.mpr hh, List.isEmpty_eq_false.mpr hr]
  have hm : ∃ m, trendMetric d.rows c = some m ∧ m.label = c ++ " Trend" ∧
      (m.value = "+Infinity%" ∨ m.value = "-Infinity%" ∨ m.value = "NaN%") := by
    unfold trendMetric
    rw [if_pos h2, h0]
    set lst := (d.rows.filterMap (fun r => asNum (getCell r c))).getLastD 0 with hlst
    rcases lt_trichotomy lst 0 with hl | hl | hl
    · refine ⟨_, rfl, rfl, ?_⟩
      right; left
      simp only [percentChange, jsDivQ, sub_zero, if_pos rfl, hl, not_lt.mpr hl.le,
        if_false, if_true, reduceIte, JSNum.gtZero, JSNum.toFixed, Bool.false_eq_true]
      rfl
    · refine ⟨_, rfl, rfl, ?_⟩
      right; right
      simp only [percentChange, jsDivQ, sub_zero, hl, lt_irrefl, if_false, reduceIte,
        JSNum.gtZero, JSNum.toFixed, Bool.false_eq_true]
      rfl
    · refine ⟨_, rfl, rfl, ?_⟩
      left
      simp only [percentChange, jsDivQ, sub_zero, hl, not_lt.mpr hl.le, if_true, if_false,
        reduceIte, JSNum.gtZero, JSNum.toFixed]
      rfl
  rcases hm with ⟨m, hmm, hlab, hval⟩
  have hmem : m ∈ (numericColsOf d.headers d.rows).filterMap (trendMetric d.rows) :=
    List.mem_filterMap.mpr ⟨c, hc, hmm⟩
  refine ⟨_, hdisp, m, ?_, hlab, hval⟩
  simp only [generateTrends]
  rw [if_pos (List.length_pos.mpr (List.ne_nil_of_mem hmem))]
  exact hmem

/-- A column whose first numeric value is 0. -/
def exZero : Dataset := ⟨["V"], [[("V", .num 0)], [("V", .num 5)]], "z.csv"⟩

/-- Witness for C10. -/
theorem c10_witness :
    ∃ ins, generateDataInsights (some exZero) { analysisType := "trends" } = .ok ins ∧
      ∃ m ∈ ins.metrics, m.label = "V" ++ " Trend" ∧
        (m.value = "+Infinity%" ∨ m.value = "-Infinity%" ∨ m.value = "NaN%") :=
  c10_trend_zero_divisor exZero (by decide) (by decide) "V" (by decide) (by decide) (by decide)

/-- C3: the top-performers insight for an existing target column and
a positive limit N returns a list of at most N entries whose ranks are
exactly 1, 2, 3, … in order, built from the descending-sorted and
truncated rows; under the code's numeric comparison adjacent entries
are non-increasing — whenever the target cells of two adjacent entries
are both numbers, the former is at least the latter (all other pairs
compare as ties and keep their order). -/
theorem c3_top_performers (d : Dataset) (hh : d.headers ≠ []) (hr : d.rows ≠ [])
    (c : String) (hcmem : c ∈ d.headers) (hcne : c ≠ "") (N : ℤ) (hN : 0 < N) :
    ∃ ins, generateDataInsights (some d)
        { analysisType := "top_performers", column := some c, limit := some N } = .ok ins ∧
      ins.topPerformers =
        some (topPerformersList c (labelColumnOf d.headers d.rows) (topSlice c d.rows N)) ∧
      (topSlice c d.rows N).length ≤ N.toNat ∧
      (∀ i (h : i < (topPerformersList c (labelColumnOf d.headers d.rows)
          (topSlice c d.rows N)).length),
        ((topPerformersList c (labelColumnOf d.headers d.rows)
          (topSlice c d.rows N)).get ⟨i, h⟩).rank = i + 1) ∧
      (∀ i (hi : i + 1 < (topSlice c d.rows N).length) (x y : ℚ),
        getCell ((topSlice c d.rows N).get ⟨i, Nat.lt_of_succ_lt hi⟩) c = .num x →
        getCell ((topSlice c d.rows N).get ⟨i + 1, hi⟩) c = .num y → y ≤ x) := by
  have hcont : d.headers.contains c = true := by simpa using hcmem
  have hdisp : generateDataInsights (some d)
      { analysisType := "top_performers", column := some c, limit := some N } =
      generateTopPerformers d.headers d.rows (some c) N := by
    simp [generateDataInsights, List.isEmpty_eq_false.mpr hh, List.isEmpty_eq_false.mpr hr,
      optTruthy, hcne, jsOrInt, hN.ne']
  have hins : generateTopPerformers d.headers d.rows (some c) N =
      .ok { title := "Top " ++ toString N ++ " by " ++ c
            description := "Highest performing items based on " ++ c
            metrics := [⟨"Top Value",
                (match (topSlice c d.rows N).head? with
                 | none => "N/A"
                 | some r => renderNA (getCell r c)), "positive"⟩,
              ⟨"Items Analyzed", toString d.rows.length, "neutral"⟩]
            topPerformers := some (topPerformersList c (labelColumnOf d.headers d.rows)
              (topSlice c d.rows N))
            recommendations := some
              ["Focus on top performers: " ++ String.intercalate ", "
                 (((topSlice c d.rows N).take 3).map
                   (fun r => jsString (getCell r (labelColumnOf d.headers d.rows)))),
               "Average " ++ c ++ ": " ++ avgRecString c (topSlice c d.rows N)] } := by
    simp only [generateTopPerformers, hcont, Bool.not_true, Bool.false_eq_true, if_false]
  refine ⟨_, hdisp.trans hins, rfl, ?_, ?_, ?_⟩
  · -- at most N entries
    have hN' : ¬ (N < 0) := not_lt.mpr hN.le
    simp only [topSlice, jsSlice, hN', if_false, List.length_take]
    omega
  · -- ranks are 1, 2, 3, ...
    intro i h
    have hl : i < (topSlice c d.rows N).length := by
      simpa [topPerformersList, List.length_mapIdx] using h
    simp [topPerformersList, List.get_mapIdx _ _ i hl, topEntry]
  · -- adjacent numeric values are non-increasing
    have htot : ∀ a b : Row,
        (decide (topCmp c a b ≤ 0)) = true ∨ (decide (topCmp c b a ≤ 0)) = true := by
      intro a b
      rcases topCmp_total c a b with h | h
      · exact Or.inl (decide_eq_true h)
      · exact Or.inr (decide_eq_true h)
    have hch : (topSorted c d.rows).Chain' (fun a b => decide (topCmp c a b ≤ 0) = true) :=
      chain'_isortR _ htot _
    have hchS : (topSlice c d.rows N).Chain' (fun a b => decide (topCmp c a b ≤ 0) = true) :=
      hch.take _
    intro i hi x y hx hy
    have hR := List.chain'_iff_get.mp hchS i (by omega)
    have hle : topCmp c ((topSlice c d.rows N).get ⟨i, Nat.lt_of_succ_lt hi⟩)
        ((topSlice c d.rows N).get ⟨i + 1, hi⟩) ≤ 0 := of_decide_eq_true hR
    simp only [topCmp, hx, hy] at hle
    linarith

/-- A three-row dataset with a name column and a numeric score. -/
def exScores : Dataset :=
  ⟨["Name", "Score"],
   [[("Name", .str "a"), ("Score", .num 3)],
    [("Name", .str "b"), ("Score", .num 9)],
    [("Name", .str "c"), ("Score", .num 5)]], "s.csv"⟩

/-- Witness for C3. -/
theorem c3_witness :
    ∃ ins, generateDataInsights (some exScores)
        { analysisType := "top_performers", column := some "Score", limit := some 2 } = .ok ins ∧
      ins.topPerformers =
        some (topPerformersList "Score" (labelColumnOf exScores.headers exScores.rows)
          (topSlice "Score" exScores.rows 2)) ∧
      (topSlice "Score" exScores.rows 2).length ≤ (2 : ℤ).toNat ∧
      (∀ i (h : i < (topPerformersList "Score" (labelColumnOf exScores.headers exScores.rows)
          (topSlice "Score" exScores.rows 2)).length),
        ((topPerformersList "Score" (labelColumnOf exScores.headers exScores.rows)
          (topSlice "Score" exScores.rows 2)).get ⟨i, h⟩).rank = i + 1) ∧
      (∀ i (hi : i + 1 < (topSlice "Score" exScores.rows 2).length) (x y : ℚ),
        getCell ((topSlice "Score" exScores.rows 2).get ⟨i, Nat.lt_of_succ_lt hi⟩) "Score" = .num x →
        getCell ((topSlice "Score" exScores.rows 2).get ⟨i + 1, hi⟩) "Score" = .num y → y ≤ x) :=
  c3_top_performers exScores (by decide) (by decide) "Score" (by decide) (by decide) 2 (by decide)

end Tambo
